import Mathlib

/-!
# Verification of the contact-submission pipeline

Shallow embedding of `server/routes/email.js`: the input sanitizer, the
validator, the mail-options builders, the `POST /contact` request handler and
the rate limiter that guards it.  JavaScript strings are modelled as Lean
`String`s (lists of characters); `undefined`/`null`/non-string request-body
values are modelled by a `JSValue` sum type; environment variables are
`Option String`; the nodemailer transport is modelled by the outcomes of its
`verify` and `sendMail` calls.
-/

/-- A JSON value as it can appear in a request-body field: a string, or any
of the non-string shapes (`typeof input !== 'string'`) that the sanitizer
collapses to the empty string. -/
inductive JSValue where
  | str (s : String)
  | undef
  | nul
  | num (n : Int)
  | boolean (b : Bool)
deriving DecidableEq, Repr

/-- `true` exactly on the `str` constructor (`typeof input === 'string'`). -/
def JSValue.isStr : JSValue → Bool
  | .str _ => true
  | _ => false

/-- JavaScript whitespace for `String.prototype.trim`, restricted to the
ASCII whitespace characters that can occur in our inputs. -/
def jsWhitespace (c : Char) : Bool :=
  c == ' ' || c == '\t' || c == '\n' || c == '\r'

/-- Drop whitespace from the front of a character list (`trimStart`). -/
def trimStartList (l : List Char) : List Char :=
  l.dropWhile jsWhitespace

/-- Drop whitespace from the back of a character list (`trimEnd`). -/
def trimEndList (l : List Char) : List Char :=
  (l.reverse.dropWhile jsWhitespace).reverse

/-- `String.prototype.trim` on character lists. -/
def jsTrimList (l : List Char) : List Char :=
  trimEndList (trimStartList l)

/-- `String.prototype.trim` on strings. -/
def jsTrimStr (s : String) : String :=
  (jsTrimList s.data).asString

/-- Characters kept by `.replace(/[<>]/g, '')`. -/
def keepChar (c : Char) : Bool :=
  !(c == '<' || c == '>')

/-- The string pipeline of `sanitizeInput`, on character lists:
`.trim()`, then `.replace(/[<>]/g, '')`, then `.substring(0, 1000)`. -/
def sanitizeList (l : List Char) : List Char :=
  ((jsTrimList l).filter keepChar).take 1000

/-- The string pipeline of `sanitizeInput` on strings. -/
def sanitizeStr (s : String) : String :=
  (sanitizeList s.data).asString

/-- `sanitizeInput` (email.js lines 21-29): non-string input yields `''`,
otherwise trim, strip angle brackets, truncate to 1000 characters. -/
def sanitizeInput (input : JSValue) : String :=
  match input with
  | .str s => sanitizeStr s
  | _ => ""

-- Quick sanity checks of the embedding on the spec's own example.
example : sanitizeStr "<script>" = "script" := by decide
example : sanitizeStr "  hi  " = "hi" := by decide

/-- The sanitized `{name, email, message}` triple handed to the validator. -/
structure ContactData where
  name : String
  email : String
  message : String
deriving DecidableEq, Repr

/-- The five validation-error strings of `validateEmailData`, in source
order. -/
def nameTooShortMsg : String := "Name must be at least 2 characters long"

/-- Error string pushed when `data.name.length > 100`. -/
def nameTooLongMsg : String := "Name must be less than 100 characters"

/-- Error string pushed when the email fails the syntactic check. -/
def emailInvalidMsg : String := "Valid email address is required"

/-- Error string pushed when `data.message.trim().length < 10`. -/
def messageTooShortMsg : String := "Message must be at least 10 characters long"

/-- Error string pushed when `data.message.length > 5000`. -/
def messageTooLongMsg : String := "Message must be less than 5000 characters"

/-- `validateEmailData` (email.js lines 32-57).  The five checks run
independently, pushing their error strings in source order; the empty string
is the only falsy JavaScript string, so `!data.name` is `data.name == ""`.
The `validator.validate` call of the third-party `email-validator` package is
not part of this repository, so it is a parameter `emailValid`. -/
def validateEmailData (emailValid : String → Bool) (data : ContactData) :
    List String :=
  (if data.name == "" || (jsTrimStr data.name).length < 2
    then [nameTooShortMsg] else [])
  ++ (if data.name != "" && data.name.length > 100
    then [nameTooLongMsg] else [])
  ++ (if data.email == "" || !(emailValid data.email)
    then [emailInvalidMsg] else [])
  ++ (if data.message == "" || (jsTrimStr data.message).length < 10
    then [messageTooShortMsg] else [])
  ++ (if data.message != "" && data.message.length > 5000
    then [messageTooLongMsg] else [])

example :
    validateEmailData (fun _ => true)
      ⟨"Jo", "jo@example.com", "Hello, this is a test message."⟩ = [] := by
  decide

example :
    validateEmailData (fun _ => true) ⟨"J", "jo@example.com", "short"⟩ =
      [nameTooShortMsg, messageTooShortMsg] := by
  decide

/-- The environment variables the route reads (`process.env.*`); `none`
models an unset variable. -/
structure Env where
  smtpHost : Option String
  smtpPort : Option String
  smtpUser : Option String
  smtpPass : Option String
  contactEmail : Option String
deriving DecidableEq, Repr

/-- JavaScript truthiness of an environment variable: set and non-empty
(the empty string is falsy). -/
def jsTruthy (v : Option String) : Bool :=
  match v with
  | some s => s != ""
  | none => false

/-- `process.env.X || dflt`: the variable when truthy, else the default. -/
def jsOrStr (v : Option String) (dflt : String) : String :=
  match v with
  | some s => if s == "" then dflt else s
  | none => dflt

/-- Template-literal interpolation of an environment variable
(JavaScript renders `undefined` as the string `undefined`). -/
def jsInterp (v : Option String) : String :=
  match v with
  | some s => s
  | none => "undefined"

/-- `parseInt(process.env.SMTP_PORT) || 587`: an unset or non-numeric
variable gives `NaN` (falsy), and `0` is falsy, so both fall back to 587. -/
def smtpPortOf (v : Option String) : Nat :=
  match v.bind (fun s => s.toNat?) with
  | some n => if n == 0 then 587 else n
  | none => 587

/-- The nodemailer transport configuration built by `createTransporter`
(email.js lines 60-73). -/
structure TransportConfig where
  host : String
  port : Nat
  secure : Bool
  authUser : Option String
  authPass : Option String
  tlsRejectUnauthorized : Bool
deriving DecidableEq, Repr

/-- `createTransporter` (email.js lines 60-73). -/
def createTransporter (env : Env) : TransportConfig :=
  { host := jsOrStr env.smtpHost "smtp.gmail.com"
    port := smtpPortOf env.smtpPort
    secure := false
    authUser := env.smtpUser
    authPass := env.smtpPass
    tlsRejectUnauthorized := true }

/-- A message handed to `transporter.sendMail`.  The `html` bodies of the
two messages are pure presentation markup (fixed HTML around the same three
sanitized fields) referenced by no spec property and are not modelled. -/
structure MailOptions where
  «from» : String
  «to» : String
  replyTo : Option String
  subject : String
  text : Option String
deriving DecidableEq, Repr

/-- The outcomes of the transport's network operations for one request:
the result of `transporter.verify()`, and of the n-th `sendMail` call
(`Except.error e` models a rejected promise with reason `e`). -/
structure Transport where
  verifyResult : Except String Unit
  sendResult : Nat → Except String String

/-- A request body: each of the three extracted fields is an arbitrary
JSON value (possibly absent, `undef`). -/
structure RequestBody where
  name : JSValue
  email : JSValue
  message : JSValue
deriving DecidableEq, Repr

/-- The `sanitizedData` object built by the handler (email.js lines 81-85). -/
def sanitizeBody (body : RequestBody) : ContactData :=
  { name := sanitizeInput body.name
    email := sanitizeInput body.email
    message := sanitizeInput body.message }

/-- `ownerMailOptions` (email.js lines 120-168): notification to the site
owner, with the sender's address as reply-to. -/
def ownerMailOptions (env : Env) (d : ContactData) : MailOptions :=
  { «from» := "\"Portfolio Contact\" <" ++ jsInterp env.smtpUser ++ ">"
    «to» := jsOrStr env.contactEmail "lokeshtrivedi2004@gmail.com"
    replyTo := some d.email
    subject := "Portfolio Contact from " ++ d.name
    text := some ("\nName: " ++ d.name ++ "\nEmail: " ++ d.email
      ++ "\n\nMessage:\n" ++ d.message ++ "\n      ") }

/-- `autoReplyOptions` (email.js lines 175-203): acknowledgement to the
sender; it has only an `html` body, so `text` is absent. -/
def autoReplyOptions (env : Env) (d : ContactData) : MailOptions :=
  { «from» := "\"Lokesh Trivedi\" <" ++ jsInterp env.smtpUser ++ ">"
    «to» := d.email
    replyTo := none
    subject := "Thank you for contacting me!"
    text := none }

/-- Client-facing message of the missing-credentials response. -/
def configErrorMsg : String :=
  "Email service not configured. Please contact the administrator."

/-- Client-facing message of the failed-verification response. -/
def unavailableMsg : String :=
  "Email service is temporarily unavailable. Please try again later."

/-- Client-facing message of the success response. -/
def successMsg : String :=
  "Email sent successfully! I will get back to you soon."

/-- Client-facing message of the catch-all send-failure response. -/
def sendFailedMsg : String :=
  "Failed to send email. Please try again later or contact me directly."

/-- Everything observable about one run of the handler: the single JSON
response (status plus `success`/`message`/`errors` body fields), the
messages handed to `sendMail` in order, the `console` log lines, whether a
transporter object was created, and whether `verify` was called. -/
structure HandlerResult where
  status : Nat
  success : Bool
  message : Option String
  errors : Option (List String)
  sent : List MailOptions
  logs : List String
  transporter : Option TransportConfig
  verifyCalled : Bool
deriving Repr

/-- The `POST /contact` handler body (email.js lines 76-221), after the
rate limiter has admitted the request.  Control flow follows the source:
sanitize, validate (400 on any violation), check credentials (500), create
and verify the transporter (500 on failure), send the owner notification
then the auto-reply (the outer catch turns a rejected `sendMail` into the
generic 500), else respond 200.  Each exit returns exactly one response. -/
def contactHandler (emailValid : String → Bool) (env : Env) (tr : Transport)
    (body : RequestBody) : HandlerResult :=
  let sanitizedData := sanitizeBody body
  let validationErrors := validateEmailData emailValid sanitizedData
  if validationErrors.length > 0 then
    { status := 400, success := false, message := none
      errors := some validationErrors, sent := [], logs := []
      transporter := none, verifyCalled := false }
  else if !(jsTruthy env.smtpUser) || !(jsTruthy env.smtpPass) then
    { status := 500, success := false, message := some configErrorMsg
      errors := none, sent := []
      logs := ["SMTP credentials not configured"]
      transporter := none, verifyCalled := false }
  else
    let transporter := createTransporter env
    match tr.verifyResult with
    | .error verifyError =>
      { status := 500, success := false, message := some unavailableMsg
        errors := none, sent := []
        logs := ["SMTP verification failed: " ++ verifyError]
        transporter := some transporter, verifyCalled := true }
    | .ok _ =>
      let owner := ownerMailOptions env sanitizedData
      match tr.sendResult 0 with
      | .error sendError =>
        { status := 500, success := false, message := some sendFailedMsg
          errors := none, sent := [owner]
          logs := ["Error sending email: " ++ sendError]
          transporter := some transporter, verifyCalled := true }
      | .ok messageId =>
        let autoReply := autoReplyOptions env sanitizedData
        match tr.sendResult 1 with
        | .error sendError =>
          { status := 500, success := false, message := some sendFailedMsg
            errors := none, sent := [owner, autoReply]
            logs := ["Email sent successfully: " ++ messageId,
                     "Error sending email: " ++ sendError]
            transporter := some transporter, verifyCalled := true }
        | .ok _ =>
          { status := 200, success := true, message := some successMsg
            errors := none, sent := [owner, autoReply]
            logs := ["Email sent successfully: " ++ messageId]
            transporter := some transporter, verifyCalled := true }

/-- The fixed rejection body configured for the rate limiter
(email.js lines 12-15). -/
structure RateLimitMessage where
  success : Bool
  message : String
deriving DecidableEq, Repr

/-- The `emailLimiter` configuration (email.js lines 9-18). -/
structure RateLimitConfig where
  windowMs : Nat
  max : Nat
  message : RateLimitMessage
  standardHeaders : Bool
  legacyHeaders : Bool
deriving DecidableEq, Repr

/-- `emailLimiter`'s options object: 15-minute window, at most 3 requests
per client address, fixed rejection message. -/
def emailLimiterConfig : RateLimitConfig :=
  { windowMs := 15 * 60 * 1000
    max := 3
    message := ⟨false, "Too many email requests from this IP, please try again after 15 minutes"⟩
    standardHeaders := true
    legacyHeaders := false }

/-- Window state for one client address: when its current window started
(milliseconds) and how many requests it has counted. -/
structure LimiterEntry where
  windowStart : Nat
  count : Nat
deriving DecidableEq, Repr

/-- The limiter's shared counter table, keyed by client network address. -/
def LimiterStore : Type := String → Option LimiterEntry

/-- Modelled from the spec: the `express-rate-limit` middleware itself is a
third-party package not in this repository; §4.5 describes it as a window
counter keyed by client address that accepts at most `max` requests per
`windowMs` window and resets the counter on window expiry.  One step takes
the address's entry and the current time and returns the new entry and
whether the request is admitted. -/
def limiterStep (cfg : RateLimitConfig) (entry : Option LimiterEntry)
    (now : Nat) : LimiterEntry × Bool :=
  match entry with
  | none => (⟨now, 1⟩, true)
  | some e =>
    if e.windowStart + cfg.windowMs ≤ now then (⟨now, 1⟩, true)
    else if e.count < cfg.max then (⟨e.windowStart, e.count + 1⟩, true)
    else (e, false)

/-- What the route returns for one request: either the rate limiter's
rejection (status 429 with the configured body, the handler never runs),
or the handler's result. -/
inductive RouteOutcome where
  | limited (status : Nat) (body : RateLimitMessage)
  | handled (r : HandlerResult)

/-- `router.post('/contact', emailLimiter, handler)` (email.js line 76):
the limiter runs first; only admitted requests reach `contactHandler`. -/
def postContact (store : LimiterStore) (addr : String) (now : Nat)
    (emailValid : String → Bool) (env : Env) (tr : Transport)
    (body : RequestBody) : LimiterStore × RouteOutcome :=
  let (entry, admitted) := limiterStep emailLimiterConfig (store addr) now
  let store' : LimiterStore := fun a => if a = addr then some entry else store a
  if admitted then
    (store', .handled (contactHandler emailValid env tr body))
  else
    (store', .limited 429 emailLimiterConfig.message)

/-- Run a sequence of same-address requests at the given timestamps through
the rate-limited route, collecting each request's outcome in order. -/
def runContacts (ev : String → Bool) (env : Env) (tr : Transport)
    (body : RequestBody) (addr : String) :
    LimiterStore → List Nat → List RouteOutcome
  | _, [] => []
  | store, t :: ts =>
    let p := postContact store addr t ev env tr body
    p.2 :: runContacts ev env tr body addr p.1 ts

/-- The spec's end-to-end example request body. -/
def joBody : RequestBody :=
  { name := .str "Jo", email := .str "jo@example.com"
    message := .str "Hello, this is a test message." }

/-- A request body failing all three validation rules. -/
def badBody : RequestBody :=
  { name := .str "J", email := .str "not-an-email", message := .str "short" }

/-- A request body whose `name` field is absent. -/
def undefBody : RequestBody :=
  { name := .undef, email := .str "jo@example.com"
    message := .str "Hello, this is a test message." }

/-- A fully configured environment. -/
def fullEnv : Env :=
  { smtpHost := some "smtp.example.com", smtpPort := some "587"
    smtpUser := some "user@example.com", smtpPass := some "secret"
    contactEmail := some "owner@example.com" }

/-- An environment with no SMTP credentials. -/
def noCredEnv : Env :=
  { smtpHost := some "smtp.example.com", smtpPort := none
    smtpUser := none, smtpPass := none, contactEmail := none }

/-- A transport whose verification and sends all succeed. -/
def okTransport : Transport :=
  { verifyResult := .ok (), sendResult := fun _ => .ok "id" }

/-- A transport whose verification handshake fails. -/
def failVerifyTransport : Transport :=
  { verifyResult := .error "boom", sendResult := fun _ => .ok "id" }

/-! ## Lemmas about trimming and sanitization -/

theorem dropWhile_dropWhile {α : Type} (p : α → Bool) (l : List α) :
    (l.dropWhile p).dropWhile p = l.dropWhile p := by
  induction l with
  | nil => rfl
  | cons a t ih =>
    by_cases h : p a
    · simp [List.dropWhile_cons, h, ih]
    · simp [List.dropWhile_cons, h]

theorem dropWhile_prefix_eq {α : Type} (p : α → Bool) (l m : List α)
    (hm : l.dropWhile p = l) (hpre : m <+: l) : m.dropWhile p = m := by
  match hm' : m with
  | [] => rfl
  | a :: t =>
    have hpa : p a = false := by
      by_contra hp
      have hpa : p a = true := by simpa using hp
      obtain ⟨r, hr⟩ := hpre
      have hl : l = a :: (t ++ r) := by rw [← hr]; rfl
      rw [hl, List.dropWhile_cons, if_pos hpa] at hm
      have hle := (List.dropWhile_sublist (l := t ++ r) p).length_le
      rw [hm] at hle
      simp at hle
    simp [List.dropWhile_cons, hpa]

theorem trimStartList_idem (l : List Char) :
    trimStartList (trimStartList l) = trimStartList l :=
  dropWhile_dropWhile jsWhitespace l

theorem trimEndList_idem (l : List Char) :
    trimEndList (trimEndList l) = trimEndList l := by
  unfold trimEndList
  rw [List.reverse_reverse, dropWhile_dropWhile]

theorem trimEndList_prefix_self (l : List Char) : trimEndList l <+: l := by
  obtain ⟨t, ht⟩ := List.dropWhile_suffix (l := l.reverse) jsWhitespace
  refine ⟨t.reverse, ?_⟩
  have h2 := congrArg List.reverse ht
  simpa [trimEndList, List.reverse_append] using h2

theorem trimEndList_sublist (l : List Char) : List.Sublist (trimEndList l) l :=
  (trimEndList_prefix_self l).sublist

theorem jsTrimList_sublist (l : List Char) : List.Sublist (jsTrimList l) l :=
  (trimEndList_sublist (trimStartList l)).trans (List.dropWhile_sublist jsWhitespace)

theorem jsTrimList_length_le (l : List Char) :
    (jsTrimList l).length ≤ l.length :=
  (jsTrimList_sublist l).length_le

theorem trimStartList_trimEndList (l : List Char) (h : trimStartList l = l) :
    trimStartList (trimEndList l) = trimEndList l :=
  dropWhile_prefix_eq jsWhitespace l (trimEndList l) h (trimEndList_prefix_self l)

theorem jsTrimList_idem (l : List Char) :
    jsTrimList (jsTrimList l) = jsTrimList l := by
  show trimEndList (trimStartList (trimEndList (trimStartList l))) =
    trimEndList (trimStartList l)
  rw [trimStartList_trimEndList _ (trimStartList_idem l), trimEndList_idem]

theorem sanitizeList_length_le (l : List Char) :
    (sanitizeList l).length ≤ l.length := by
  simp only [sanitizeList, List.length_take]
  exact le_trans (min_le_right _ _)
    (le_trans (List.length_filter_le _ _) (jsTrimList_length_le l))

theorem sanitizeList_le_1000 (l : List Char) :
    (sanitizeList l).length ≤ 1000 := by
  simp only [sanitizeList, List.length_take]
  exact min_le_left _ _

theorem sanitizeList_keep (l : List Char) :
    ∀ c ∈ sanitizeList l, keepChar c = true := by
  intro c hc
  have hc' : c ∈ (jsTrimList l).filter keepChar := List.take_subset _ _ hc
  exact (List.mem_filter.mp hc').2

theorem sanitizeList_of_clean (m : List Char)
    (hkeep : ∀ c ∈ m, keepChar c = true) (hlen : m.length ≤ 1000) :
    sanitizeList m = jsTrimList m := by
  unfold sanitizeList
  rw [List.filter_eq_self.mpr (fun c hc => hkeep c ((jsTrimList_sublist m).subset hc)),
      List.take_of_length_le (le_trans (jsTrimList_length_le m) hlen)]

theorem sanitizeList_twice (l : List Char) :
    sanitizeList (sanitizeList l) = jsTrimList (sanitizeList l) :=
  sanitizeList_of_clean _ (sanitizeList_keep l) (sanitizeList_le_1000 l)

theorem sanitizeList_triple (l : List Char) :
    sanitizeList (sanitizeList (sanitizeList l)) = sanitizeList (sanitizeList l) := by
  rw [sanitizeList_of_clean (sanitizeList (sanitizeList l))
        (sanitizeList_keep _) (sanitizeList_le_1000 _),
      sanitizeList_twice, jsTrimList_idem]

theorem sanitizeStr_triple (s : String) :
    sanitizeStr (sanitizeStr (sanitizeStr s)) = sanitizeStr (sanitizeStr s) := by
  show (sanitizeList (sanitizeList (sanitizeList s.data))).asString =
    (sanitizeList (sanitizeList s.data)).asString
  rw [sanitizeList_triple]

theorem sanitizeStr_length_le (s : String) :
    (sanitizeStr s).length ≤ s.length :=
  sanitizeList_length_le s.data

theorem jsTrimStr_length_le (s : String) : (jsTrimStr s).length ≤ s.length :=
  jsTrimList_length_le s.data

/-! ## Lemmas about the validator's error list -/

theorem mem_ite_singleton {c : Prop} [Decidable c] (x y : String) :
    (x ∈ (if c then [y] else [])) ↔ (c ∧ x = y) := by
  split <;> simp_all

theorem nameTooShort_mem_iff (ev : String → Bool) (d : ContactData) :
    nameTooShortMsg ∈ validateEmailData ev d ↔ (jsTrimStr d.name).length < 2 := by
  have h1 : nameTooShortMsg ≠ nameTooLongMsg := by decide
  have h2 : nameTooShortMsg ≠ emailInvalidMsg := by decide
  have h3 : nameTooShortMsg ≠ messageTooShortMsg := by decide
  have h4 : nameTooShortMsg ≠ messageTooLongMsg := by decide
  simp only [validateEmailData, List.mem_append, mem_ite_singleton,
    Bool.or_eq_true, Bool.and_eq_true, beq_iff_eq, bne_iff_ne,
    decide_eq_true_eq, h1, h2, h3, h4, and_false, and_true, or_false,
    false_or]
  constructor
  · rintro (he | hlt)
    · rw [he]; decide
    · exact hlt
  · exact fun h => Or.inr h

theorem nameTooLong_mem_iff (ev : String → Bool) (d : ContactData) :
    nameTooLongMsg ∈ validateEmailData ev d ↔ d.name.length > 100 := by
  have h1 : nameTooLongMsg ≠ nameTooShortMsg := by decide
  have h2 : nameTooLongMsg ≠ emailInvalidMsg := by decide
  have h3 : nameTooLongMsg ≠ messageTooShortMsg := by decide
  have h4 : nameTooLongMsg ≠ messageTooLongMsg := by decide
  simp only [validateEmailData, List.mem_append, mem_ite_singleton,
    Bool.or_eq_true, Bool.and_eq_true, beq_iff_eq, bne_iff_ne,
    decide_eq_true_eq, h1, h2, h3, h4, and_false, and_true, or_false,
    false_or]
  constructor
  · exact fun h => h.2
  · intro h
    refine ⟨?_, h⟩
    intro he
    rw [he] at h
    exact absurd h (by decide)

theorem messageTooShort_mem_iff (ev : String → Bool) (d : ContactData) :
    messageTooShortMsg ∈ validateEmailData ev d ↔
      (jsTrimStr d.message).length < 10 := by
  have h1 : messageTooShortMsg ≠ nameTooShortMsg := by decide
  have h2 : messageTooShortMsg ≠ nameTooLongMsg := by decide
  have h3 : messageTooShortMsg ≠ emailInvalidMsg := by decide
  have h4 : messageTooShortMsg ≠ messageTooLongMsg := by decide
  simp only [validateEmailData, List.mem_append, mem_ite_singleton,
    Bool.or_eq_true, Bool.and_eq_true, beq_iff_eq, bne_iff_ne,
    decide_eq_true_eq, h1, h2, h3, h4, and_false, and_true, or_false,
    false_or]
  constructor
  · rintro (he | hlt)
    · rw [he]; decide
    · exact hlt
  · exact fun h => Or.inr h

theorem messageTooLong_mem_iff (ev : String → Bool) (d : ContactData) :
    messageTooLongMsg ∈ validateEmailData ev d ↔ d.message.length > 5000 := by
  have h1 : messageTooLongMsg ≠ nameTooShortMsg := by decide
  have h2 : messageTooLongMsg ≠ nameTooLongMsg := by decide
  have h3 : messageTooLongMsg ≠ emailInvalidMsg := by decide
  have h4 : messageTooLongMsg ≠ messageTooShortMsg := by decide
  simp only [validateEmailData, List.mem_append, mem_ite_singleton,
    Bool.or_eq_true, Bool.and_eq_true, beq_iff_eq, bne_iff_ne,
    decide_eq_true_eq, h1, h2, h3, h4, and_false, and_true, or_false,
    false_or]
  constructor
  · exact fun h => h.2
  · intro h
    refine ⟨?_, h⟩
    intro he
    rw [he] at h
    exact absurd h (by decide)

/-! ## Claim theorems, C3-C5: sanitizer and validator -/

/-- C3 counterexample: sanitization is not idempotent as claimed.  On the
input `"< a >"` one application gives `" a "` (removing the angle brackets
exposes whitespace at the ends), a second application trims it to `"a"`. -/
theorem sanitizeInput_not_idempotent_cex :
    sanitizeInput (.str (sanitizeInput (.str "< a >"))) ≠
      sanitizeInput (.str "< a >") := by
  decide

/-- C3 (amended): applying the sanitizer twice reaches a fixed point - a
third application returns the double application unchanged - and for every
string input the output's length never exceeds the input's length.  (A
single application is not a fixed point: removing `<`/`>`, or truncating at
1000 characters, can expose whitespace that the next application trims.) -/
theorem sanitizeInput_twice_fixed_and_never_lengthens :
    (∀ v : JSValue,
      sanitizeInput (.str (sanitizeInput (.str (sanitizeInput v)))) =
        sanitizeInput (.str (sanitizeInput v))) ∧
    (∀ s : String, (sanitizeInput (.str s)).length ≤ s.length) := by
  constructor
  · intro v
    match v with
    | .str s => exact sanitizeStr_triple s
    | .undef => decide
    | .nul => decide
    | .num n =>
      show sanitizeStr (sanitizeStr "") = sanitizeStr ""
      decide
    | .boolean b =>
      show sanitizeStr (sanitizeStr "") = sanitizeStr ""
      decide
  · exact fun s => sanitizeStr_length_le s

/-- C4: whenever the sanitized message's trimmed length is below 10 or
above 5000, `validateEmailData` reports a message-length violation (hence a
message is accepted only when its trimmed length lies in [10, 5000]). -/
theorem validate_reports_message_length_violation
    (ev : String → Bool) (d : ContactData)
    (h : (jsTrimStr d.message).length < 10 ∨
      (jsTrimStr d.message).length > 5000) :
    messageTooShortMsg ∈ validateEmailData ev d ∨
      messageTooLongMsg ∈ validateEmailData ev d := by
  rcases h with h | h
  · exact Or.inl ((messageTooShort_mem_iff ev d).mpr h)
  · exact Or.inr ((messageTooLong_mem_iff ev d).mpr
      (lt_of_lt_of_le h (jsTrimStr_length_le d.message)))

/-- C4 witness at a concrete input: the message `"hi"` has trimmed length
2 < 10 and the short-message violation is reported. -/
theorem validate_reports_message_length_violation_witness :
    messageTooShortMsg ∈
        validateEmailData (fun _ => true) ⟨"Jo", "a@b.co", "hi"⟩ ∨
      messageTooLongMsg ∈
        validateEmailData (fun _ => true) ⟨"Jo", "a@b.co", "hi"⟩ :=
  validate_reports_message_length_violation (fun _ => true)
    ⟨"Jo", "a@b.co", "hi"⟩ (Or.inl (by decide))

/-- C5 counterexample: a name of 98 `a`s followed by three spaces has
trimmed length 98, inside the claimed-safe range [2, 100], yet the
validator reports the name-length violation, because the upper-bound check
uses the untrimmed length (101 > 100). -/
theorem validate_name_untrimmed_cex :
    2 ≤ (jsTrimStr
      "aaaaaaaaaaaaaaaaaaaaaaaaaaaaaaaaaaaaaaaaaaaaaaaaaaaaaaaaaaaaaaaaaaaaaaaaaaaaaaaaaaaaaaaaaaaaaaaaaa   ").length ∧
    (jsTrimStr
      "aaaaaaaaaaaaaaaaaaaaaaaaaaaaaaaaaaaaaaaaaaaaaaaaaaaaaaaaaaaaaaaaaaaaaaaaaaaaaaaaaaaaaaaaaaaaaaaaaa   ").length ≤ 100 ∧
    nameTooLongMsg ∈ validateEmailData (fun _ => true)
      ⟨"aaaaaaaaaaaaaaaaaaaaaaaaaaaaaaaaaaaaaaaaaaaaaaaaaaaaaaaaaaaaaaaaaaaaaaaaaaaaaaaaaaaaaaaaaaaaaaaaaa   ",
        "a@b.co", "long enough message"⟩ := by
  decide

/-- C5 (amended): the validator reports a name violation exactly when the
name's trimmed length is below 2 or its untrimmed length is above 100 (the
source's upper-bound check runs on the raw, untrimmed `data.name`). -/
theorem validate_name_violation_iff (ev : String → Bool) (d : ContactData) :
    (nameTooShortMsg ∈ validateEmailData ev d ∨
      nameTooLongMsg ∈ validateEmailData ev d) ↔
    ((jsTrimStr d.name).length < 2 ∨ d.name.length > 100) := by
  rw [nameTooShort_mem_iff, nameTooLong_mem_iff]

theorem emailInvalid_mem_of_empty (ev : String → Bool) (d : ContactData)
    (h : d.email = "") : emailInvalidMsg ∈ validateEmailData ev d := by
  simp [validateEmailData, List.mem_append, mem_ite_singleton, h]

/-! ## Path lemmas for the handler: one record equality per exit -/

theorem contactHandler_of_invalid (ev : String → Bool) (env : Env)
    (tr : Transport) (body : RequestBody)
    (h : validateEmailData ev (sanitizeBody body) ≠ []) :
    contactHandler ev env tr body =
      { status := 400, success := false, message := none
        errors := some (validateEmailData ev (sanitizeBody body))
        sent := [], logs := [], transporter := none
        verifyCalled := false } := by
  have hlen : 0 < (validateEmailData ev (sanitizeBody body)).length :=
    List.length_pos.mpr h
  simp [contactHandler, hlen]

theorem contactHandler_of_missing_credentials (ev : String → Bool)
    (env : Env) (tr : Transport) (body : RequestBody)
    (hval : validateEmailData ev (sanitizeBody body) = [])
    (hcred : jsTruthy env.smtpUser = false ∨ jsTruthy env.smtpPass = false) :
    contactHandler ev env tr body =
      { status := 500, success := false, message := some configErrorMsg
        errors := none, sent := []
        logs := ["SMTP credentials not configured"]
        transporter := none, verifyCalled := false } := by
  rcases hcred with h | h <;> simp [contactHandler, hval, h]

theorem contactHandler_of_verify_failure (ev : String → Bool) (env : Env)
    (tr : Transport) (body : RequestBody) (e : String)
    (hval : validateEmailData ev (sanitizeBody body) = [])
    (hu : jsTruthy env.smtpUser = true) (hp : jsTruthy env.smtpPass = true)
    (hv : tr.verifyResult = .error e) :
    contactHandler ev env tr body =
      { status := 500, success := false, message := some unavailableMsg
        errors := none, sent := []
        logs := ["SMTP verification failed: " ++ e]
        transporter := some (createTransporter env)
        verifyCalled := true } := by
  simp [contactHandler, hval, hu, hp, hv]

theorem contactHandler_of_first_send_failure (ev : String → Bool)
    (env : Env) (tr : Transport) (body : RequestBody) (e : String)
    (hval : validateEmailData ev (sanitizeBody body) = [])
    (hu : jsTruthy env.smtpUser = true) (hp : jsTruthy env.smtpPass = true)
    (hv : tr.verifyResult = .ok ()) (h0 : tr.sendResult 0 = .error e) :
    contactHandler ev env tr body =
      { status := 500, success := false, message := some sendFailedMsg
        errors := none, sent := [ownerMailOptions env (sanitizeBody body)]
        logs := ["Error sending email: " ++ e]
        transporter := some (createTransporter env)
        verifyCalled := true } := by
  simp [contactHandler, hval, hu, hp, hv, h0]

theorem contactHandler_of_second_send_failure (ev : String → Bool)
    (env : Env) (tr : Transport) (body : RequestBody) (id0 e : String)
    (hval : validateEmailData ev (sanitizeBody body) = [])
    (hu : jsTruthy env.smtpUser = true) (hp : jsTruthy env.smtpPass = true)
    (hv : tr.verifyResult = .ok ()) (h0 : tr.sendResult 0 = .ok id0)
    (h1 : tr.sendResult 1 = .error e) :
    contactHandler ev env tr body =
      { status := 500, success := false, message := some sendFailedMsg
        errors := none
        sent := [ownerMailOptions env (sanitizeBody body),
                 autoReplyOptions env (sanitizeBody body)]
        logs := ["Email sent successfully: " ++ id0,
                 "Error sending email: " ++ e]
        transporter := some (createTransporter env)
        verifyCalled := true } := by
  simp [contactHandler, hval, hu, hp, hv, h0, h1]

theorem contactHandler_of_success (ev : String → Bool) (env : Env)
    (tr : Transport) (body : RequestBody) (id0 id1 : String)
    (hval : validateEmailData ev (sanitizeBody body) = [])
    (hu : jsTruthy env.smtpUser = true) (hp : jsTruthy env.smtpPass = true)
    (hv : tr.verifyResult = .ok ()) (h0 : tr.sendResult 0 = .ok id0)
    (h1 : tr.sendResult 1 = .ok id1) :
    contactHandler ev env tr body =
      { status := 200, success := true, message := some successMsg
        errors := none
        sent := [ownerMailOptions env (sanitizeBody body),
                 autoReplyOptions env (sanitizeBody body)]
        logs := ["Email sent successfully: " ++ id0]
        transporter := some (createTransporter env)
        verifyCalled := true } := by
  simp [contactHandler, hval, hu, hp, hv, h0, h1]

/-! ## Claim theorems, C1-C2, C6-C7, C9-C10: the request handler -/

/-- C1: the handler hands messages to the transport only when all three
sanitized fields pass validation; whenever the validator returns a
non-empty list, the handler responds 400 with exactly that list and zero
messages are handed to the transport. -/
theorem contact_sends_only_if_validation_passes (ev : String → Bool)
    (env : Env) (tr : Transport) (body : RequestBody) :
    (validateEmailData ev (sanitizeBody body) ≠ [] →
      (contactHandler ev env tr body).status = 400 ∧
      (contactHandler ev env tr body).errors =
        some (validateEmailData ev (sanitizeBody body)) ∧
      (contactHandler ev env tr body).sent = []) ∧
    ((contactHandler ev env tr body).sent ≠ [] →
      validateEmailData ev (sanitizeBody body) = []) := by
  constructor
  · intro h
    rw [contactHandler_of_invalid ev env tr body h]
    exact ⟨rfl, rfl, rfl⟩
  · intro hsent
    by_contra hne
    rw [contactHandler_of_invalid ev env tr body hne] at hsent
    exact hsent rfl

/-- C1 witness: on an invalid body the response is 400 with the violation
list and nothing is sent; on the valid example body the validator returns
the empty list. -/
theorem contact_sends_only_if_validation_passes_witness :
    ((contactHandler (fun _ => true) fullEnv okTransport badBody).status = 400 ∧
      (contactHandler (fun _ => true) fullEnv okTransport badBody).errors =
        some (validateEmailData (fun _ => true) (sanitizeBody badBody)) ∧
      (contactHandler (fun _ => true) fullEnv okTransport badBody).sent = []) ∧
    validateEmailData (fun _ => true) (sanitizeBody joBody) = [] :=
  ⟨(contact_sends_only_if_validation_passes (fun _ => true) fullEnv
      okTransport badBody).1 (by decide),
   (contact_sends_only_if_validation_passes (fun _ => true) fullEnv
      okTransport joBody).2 (by decide)⟩

/-- C2: with valid sanitized input, present credentials, and a transport
whose verify and both sends succeed, the handler performs exactly two send
operations - first the owner notification, then the sender acknowledgement -
and responds once with status 200 and `success: true`. -/
theorem contact_success_path_two_sends (ev : String → Bool) (env : Env)
    (tr : Transport) (body : RequestBody) (id0 id1 : String)
    (hval : validateEmailData ev (sanitizeBody body) = [])
    (hu : jsTruthy env.smtpUser = true) (hp : jsTruthy env.smtpPass = true)
    (hv : tr.verifyResult = .ok ()) (h0 : tr.sendResult 0 = .ok id0)
    (h1 : tr.sendResult 1 = .ok id1) :
    (contactHandler ev env tr body).status = 200 ∧
    (contactHandler ev env tr body).success = true ∧
    (contactHandler ev env tr body).message = some successMsg ∧
    (contactHandler ev env tr body).sent =
      [ownerMailOptions env (sanitizeBody body),
       autoReplyOptions env (sanitizeBody body)] ∧
    (contactHandler ev env tr body).sent.length = 2 := by
  rw [contactHandler_of_success ev env tr body id0 id1 hval hu hp hv h0 h1]
  exact ⟨rfl, rfl, rfl, rfl, rfl⟩

/-- C2 witness at the concrete example body with a fully working
transport. -/
theorem contact_success_path_two_sends_witness :
    (contactHandler (fun _ => true) fullEnv okTransport joBody).status = 200 ∧
    (contactHandler (fun _ => true) fullEnv okTransport joBody).success = true ∧
    (contactHandler (fun _ => true) fullEnv okTransport joBody).message =
      some successMsg ∧
    (contactHandler (fun _ => true) fullEnv okTransport joBody).sent =
      [ownerMailOptions fullEnv (sanitizeBody joBody),
       autoReplyOptions fullEnv (sanitizeBody joBody)] ∧
    (contactHandler (fun _ => true) fullEnv okTransport joBody).sent.length = 2 :=
  contact_success_path_two_sends (fun _ => true) fullEnv okTransport joBody
    "id" "id" (by decide) (by decide) (by decide) rfl rfl rfl

/-- C6: with valid input but the SMTP user or password unset (or empty),
the handler sends nothing and responds 500 with the configuration-error
message, without creating or verifying a transporter. -/
theorem contact_missing_credentials_no_send (ev : String → Bool) (env : Env)
    (tr : Transport) (body : RequestBody)
    (hval : validateEmailData ev (sanitizeBody body) = [])
    (hcred : jsTruthy env.smtpUser = false ∨ jsTruthy env.smtpPass = false) :
    (contactHandler ev env tr body).status = 500 ∧
    (contactHandler ev env tr body).message = some configErrorMsg ∧
    (contactHandler ev env tr body).sent = [] ∧
    (contactHandler ev env tr body).transporter = none ∧
    (contactHandler ev env tr body).verifyCalled = false := by
  rw [contactHandler_of_missing_credentials ev env tr body hval hcred]
  exact ⟨rfl, rfl, rfl, rfl, rfl⟩

/-- C6 witness at the concrete example body with an unconfigured
environment. -/
theorem contact_missing_credentials_no_send_witness :
    (contactHandler (fun _ => true) noCredEnv okTransport joBody).status = 500 ∧
    (contactHandler (fun _ => true) noCredEnv okTransport joBody).message =
      some configErrorMsg ∧
    (contactHandler (fun _ => true) noCredEnv okTransport joBody).sent = [] ∧
    (contactHandler (fun _ => true) noCredEnv okTransport joBody).transporter =
      none ∧
    (contactHandler (fun _ => true) noCredEnv okTransport joBody).verifyCalled =
      false :=
  contact_missing_credentials_no_send (fun _ => true) noCredEnv okTransport
    joBody (by decide) (Or.inl (by decide))

/-- C7: on the success path for the example body, the response is 200 with
`success: true` and the success message, and of the two dispatched messages
the first goes to the configured owner address with reply-to
`jo@example.com` and the second goes to `jo@example.com`. -/
theorem contact_jo_example_end_to_end (ev : String → Bool) (env : Env)
    (tr : Transport) (id0 id1 : String)
    (hev : ev "jo@example.com" = true)
    (hu : jsTruthy env.smtpUser = true) (hp : jsTruthy env.smtpPass = true)
    (hv : tr.verifyResult = .ok ()) (h0 : tr.sendResult 0 = .ok id0)
    (h1 : tr.sendResult 1 = .ok id1) :
    (contactHandler ev env tr joBody).status = 200 ∧
    (contactHandler ev env tr joBody).success = true ∧
    (contactHandler ev env tr joBody).message = some successMsg ∧
    ∃ m1 m2, (contactHandler ev env tr joBody).sent = [m1, m2] ∧
      m1.«to» = jsOrStr env.contactEmail "lokeshtrivedi2004@gmail.com" ∧
      m1.replyTo = some "jo@example.com" ∧
      m2.«to» = "jo@example.com" := by
  have hsan : sanitizeBody joBody =
      ⟨"Jo", "jo@example.com", "Hello, this is a test message."⟩ := by decide
  have hval : validateEmailData ev (sanitizeBody joBody) = [] := by
    rw [hsan]
    simp only [validateEmailData, hev]
    decide
  rw [contactHandler_of_success ev env tr joBody id0 id1 hval hu hp hv h0 h1]
  refine ⟨rfl, rfl, rfl, ownerMailOptions env (sanitizeBody joBody),
    autoReplyOptions env (sanitizeBody joBody), rfl, ?_, ?_, ?_⟩ <;>
    simp [ownerMailOptions, autoReplyOptions, hsan]

/-- C7 witness at a concrete environment and fully working transport. -/
theorem contact_jo_example_end_to_end_witness :
    (contactHandler (fun _ => true) fullEnv okTransport joBody).status = 200 ∧
    (contactHandler (fun _ => true) fullEnv okTransport joBody).success = true ∧
    (contactHandler (fun _ => true) fullEnv okTransport joBody).message =
      some successMsg ∧
    ∃ m1 m2,
      (contactHandler (fun _ => true) fullEnv okTransport joBody).sent =
        [m1, m2] ∧
      m1.«to» = jsOrStr fullEnv.contactEmail "lokeshtrivedi2004@gmail.com" ∧
      m1.replyTo = some "jo@example.com" ∧
      m2.«to» = "jo@example.com" :=
  contact_jo_example_end_to_end (fun _ => true) fullEnv okTransport "id" "id"
    rfl (by decide) (by decide) rfl rfl rfl

/-- C9: every transport failure - a failed verification handshake, or a
failed send in either of the two send operations - yields status 500 with a
fixed generic client-facing message that does not depend on the underlying
exception; the exception text appears only in the server-side log lines,
and every such path returns (no failure escapes the handler). -/
theorem contact_transport_failures_generic (ev : String → Bool) (env : Env)
    (tr : Transport) (body : RequestBody) (e : String)
    (hval : validateEmailData ev (sanitizeBody body) = [])
    (hu : jsTruthy env.smtpUser = true) (hp : jsTruthy env.smtpPass = true) :
    (tr.verifyResult = .error e →
      (contactHandler ev env tr body).status = 500 ∧
      (contactHandler ev env tr body).message = some unavailableMsg ∧
      (contactHandler ev env tr body).sent = [] ∧
      ("SMTP verification failed: " ++ e) ∈
        (contactHandler ev env tr body).logs) ∧
    (tr.verifyResult = .ok () → tr.sendResult 0 = .error e →
      (contactHandler ev env tr body).status = 500 ∧
      (contactHandler ev env tr body).message = some sendFailedMsg ∧
      ("Error sending email: " ++ e) ∈ (contactHandler ev env tr body).logs) ∧
    (∀ id0, tr.verifyResult = .ok () → tr.sendResult 0 = .ok id0 →
      tr.sendResult 1 = .error e →
      (contactHandler ev env tr body).status = 500 ∧
      (contactHandler ev env tr body).message = some sendFailedMsg ∧
      ("Error sending email: " ++ e) ∈ (contactHandler ev env tr body).logs) := by
  refine ⟨?_, ?_, ?_⟩
  · intro hv
    rw [contactHandler_of_verify_failure ev env tr body e hval hu hp hv]
    exact ⟨rfl, rfl, rfl, by simp⟩
  · intro hv h0
    rw [contactHandler_of_first_send_failure ev env tr body e hval hu hp hv h0]
    exact ⟨rfl, rfl, by simp⟩
  · intro id0 hv h0 h1
    rw [contactHandler_of_second_send_failure ev env tr body id0 e hval hu hp
      hv h0 h1]
    exact ⟨rfl, rfl, by simp⟩

/-- C9 witness: a failed verification handshake at a concrete input is
answered 500 with the generic unavailable message, nothing sent, and the
cause logged. -/
theorem contact_transport_failures_generic_witness :
    (contactHandler (fun _ => true) fullEnv failVerifyTransport joBody).status
        = 500 ∧
    (contactHandler (fun _ => true) fullEnv failVerifyTransport joBody).message
        = some unavailableMsg ∧
    (contactHandler (fun _ => true) fullEnv failVerifyTransport joBody).sent
        = [] ∧
    ("SMTP verification failed: " ++ "boom") ∈
      (contactHandler (fun _ => true) fullEnv failVerifyTransport joBody).logs :=
  (contact_transport_failures_generic (fun _ => true) fullEnv
    failVerifyTransport joBody "boom" (by decide) (by decide) (by decide)).1 rfl

/-- C10: for every request body, missing/null/non-string fields are safe:
sanitization maps every non-string value to the empty string, the validator
then reports the corresponding required-field violations (a non-empty
list), and the handler responds 400 with that list instead of failing. -/
theorem contact_nonstring_fields_safe :
    (∀ v : JSValue, v.isStr = false → sanitizeInput v = "") ∧
    (∀ (ev : String → Bool) (env : Env) (tr : Transport) (body : RequestBody),
      (body.name.isStr = false ∨ body.email.isStr = false ∨
        body.message.isStr = false) →
      validateEmailData ev (sanitizeBody body) ≠ [] ∧
      (contactHandler ev env tr body).status = 400 ∧
      (contactHandler ev env tr body).errors =
        some (validateEmailData ev (sanitizeBody body)) ∧
      (contactHandler ev env tr body).sent = []) := by
  have hsan : ∀ v : JSValue, v.isStr = false → sanitizeInput v = "" := by
    intro v hv
    cases v <;> simp_all [JSValue.isStr, sanitizeInput]
  refine ⟨hsan, ?_⟩
  intro ev env tr body hbad
  have hne : validateEmailData ev (sanitizeBody body) ≠ [] := by
    rcases hbad with h | h | h
    · refine List.ne_nil_of_mem ((nameTooShort_mem_iff ev _).mpr ?_)
      show (jsTrimStr (sanitizeBody body).name).length < 2
      rw [show (sanitizeBody body).name = "" from hsan _ h]
      decide
    · exact List.ne_nil_of_mem (emailInvalid_mem_of_empty ev _ (hsan _ h))
    · refine List.ne_nil_of_mem ((messageTooShort_mem_iff ev _).mpr ?_)
      rw [show (sanitizeBody body).message = "" from hsan _ h]
      decide
  rw [contactHandler_of_invalid ev env tr body hne]
  exact ⟨hne, rfl, rfl, rfl⟩

/-- C10 witness: a body with an absent `name` gets a 400 with a non-empty
violation list and no send. -/
theorem contact_nonstring_fields_safe_witness :
    validateEmailData (fun _ => true) (sanitizeBody undefBody) ≠ [] ∧
    (contactHandler (fun _ => true) fullEnv okTransport undefBody).status
        = 400 ∧
    (contactHandler (fun _ => true) fullEnv okTransport undefBody).errors =
      some (validateEmailData (fun _ => true) (sanitizeBody undefBody)) ∧
    (contactHandler (fun _ => true) fullEnv okTransport undefBody).sent = [] :=
  contact_nonstring_fields_safe.2 (fun _ => true) fullEnv okTransport
    undefBody (Or.inl rfl)

/-! ## Claim theorem, C8: the rate limiter -/

/-- C8: from one client address with no prior window, three requests within
the 15-minute window are admitted to the pipeline, and a fourth request
inside the same window is rejected with status 429 and the fixed rejection
message, without the contact pipeline running for it. -/
theorem rate_limiter_rejects_fourth_request (ev : String → Bool) (env : Env)
    (tr : Transport) (body : RequestBody) (addr : String)
    (store0 : LimiterStore) (t1 t2 t3 t4 : Nat)
    (h0 : store0 addr = none) (h12 : t1 ≤ t2) (h23 : t2 ≤ t3)
    (h34 : t3 ≤ t4) (hw : t4 < t1 + emailLimiterConfig.windowMs) :
    runContacts ev env tr body addr store0 [t1, t2, t3, t4] =
      [.handled (contactHandler ev env tr body),
       .handled (contactHandler ev env tr body),
       .handled (contactHandler ev env tr body),
       .limited 429 emailLimiterConfig.message] := by
  have hW : emailLimiterConfig.windowMs = 900000 := rfl
  rw [hW] at hw
  have hn2 : ¬ (t1 + emailLimiterConfig.windowMs ≤ t2) := by rw [hW]; omega
  have hn3 : ¬ (t1 + emailLimiterConfig.windowMs ≤ t3) := by rw [hW]; omega
  have hn4 : ¬ (t1 + emailLimiterConfig.windowMs ≤ t4) := by rw [hW]; omega
  have hc1 : (1 : Nat) < emailLimiterConfig.max := by decide
  have hc2 : (2 : Nat) < emailLimiterConfig.max := by decide
  have hc3 : ¬ ((3 : Nat) < emailLimiterConfig.max) := by decide
  simp [runContacts, postContact, limiterStep, h0, hn2, hn3, hn4, hc1, hc2,
    hc3]

/-- C8 witness: four requests at times 0, 1, 2, 3 ms from one address -
the first three are handled, the fourth is rejected with 429 and the fixed
message. -/
theorem rate_limiter_rejects_fourth_request_witness :
    runContacts (fun _ => true) fullEnv okTransport joBody "1.2.3.4"
        (fun _ => none) [0, 1, 2, 3] =
      [.handled (contactHandler (fun _ => true) fullEnv okTransport joBody),
       .handled (contactHandler (fun _ => true) fullEnv okTransport joBody),
       .handled (contactHandler (fun _ => true) fullEnv okTransport joBody),
       .limited 429 emailLimiterConfig.message] :=
  rate_limiter_rejects_fourth_request (fun _ => true) fullEnv okTransport
    joBody "1.2.3.4" (fun _ => none) 0 1 2 3 rfl (by decide) (by decide)
    (by decide) (by decide)
